import Mathlib

/-!
Verification of the buffered batch-commit engine of the session-replay
recording consumer (`sentry.replays.consumers.recording_buffered`): the
`RecordingBuffer` readiness state machine and the `commit_uploads` batch
flush.  The implementation module itself is not part of the staged sources
(only its unit tests, `tests/sentry/replays/unit/test_recording_buffer.py`,
are), so the definitions below are modelled from the specification's
description of the data model and operations, with the representation
details (integer whole-second deadlines, the `new()` method name) taken
from the behaviour the staged unit tests pin down.

Wall-clock time is embedded explicitly: every instant is a rational number
of seconds since the Unix epoch, and each time-dependent operation takes
the instant `now` at which it is called as an argument.
-/

/-- Python's `int()` conversion applied to a rational wall-clock timestamp:
truncation toward zero (floor for nonnegative instants, ceiling for
negative ones). -/
def pyInt (q : ℚ) : ℤ := if 0 ≤ q then ⌊q⌋ else ⌈q⌉

/-- Modelled from the spec: the `BufferState` / `RecordingBuffer` data model
(spec §3).  `accumulated_message_count` and `accumulated_byte_size` count
fragments and bytes appended since construction; `creation_time` is the
wall-clock instant of construction; `next_commit_deadline` is computed once
at construction as the construction instant plus
`max_buffer_time_in_seconds` and is stored as a whole-second integer
timestamp (the construction instant truncated by `int()`, per the integer
deadline comparison at line 120 of the staged unit test file).  The three
`max_*` fields are the immutable per-engine configuration. -/
structure RecordingBuffer where
  max_buffer_message_count : ℕ
  max_buffer_size_in_bytes : ℕ
  max_buffer_time_in_seconds : ℕ
  accumulated_message_count : ℕ
  accumulated_byte_size : ℕ
  creation_time : ℚ
  next_commit_deadline : ℤ
  deriving Repr, DecidableEq

/-- Modelled from the spec: construction of a fresh buffer state with the
given configuration at instant `now` — counters at zero, deadline anchored
to the construction instant (spec §3 lifecycle, §4.1 `renew`). -/
def RecordingBuffer.init (maxCount maxBytes maxTime : ℕ) (now : ℚ) :
    RecordingBuffer where
  max_buffer_message_count := maxCount
  max_buffer_size_in_bytes := maxBytes
  max_buffer_time_in_seconds := maxTime
  accumulated_message_count := 0
  accumulated_byte_size := 0
  creation_time := now
  next_commit_deadline := pyInt now + maxTime

/-- Modelled from the spec: `renew()` (named `new()` in the code, per the
staged unit tests) — constructs and returns a brand-new buffer state with
zeroed counters and a deadline computed from the instant of the renew call,
keeping the configuration (spec §4.1). -/
def RecordingBuffer.new (b : RecordingBuffer) (now : ℚ) : RecordingBuffer :=
  RecordingBuffer.init b.max_buffer_message_count b.max_buffer_size_in_bytes
    b.max_buffer_time_in_seconds now

/-- Modelled from the spec: `append(fragment_size_in_bytes)` — one more
fragment, `fragment_size_in_bytes` more bytes, everything else unchanged
(spec §4.1). -/
def RecordingBuffer.append (b : RecordingBuffer)
    (fragment_size_in_bytes : ℕ) : RecordingBuffer :=
  { b with
    accumulated_message_count := b.accumulated_message_count + 1
    accumulated_byte_size := b.accumulated_byte_size + fragment_size_in_bytes }

/-- Modelled from the spec: `accumulated_message_count ≥
max_buffer_message_count` (spec §4.1). -/
def RecordingBuffer.has_exceeded_max_message_count (b : RecordingBuffer) :
    Bool :=
  decide (b.max_buffer_message_count ≤ b.accumulated_message_count)

/-- Modelled from the spec: `accumulated_byte_size ≥ max_buffer_size_in_bytes`
(spec §4.1). -/
def RecordingBuffer.has_exceeded_buffer_byte_size (b : RecordingBuffer) :
    Bool :=
  decide (b.max_buffer_size_in_bytes ≤ b.accumulated_byte_size)

/-- Modelled from the spec: `now() ≥ next_commit_deadline`, re-evaluated at
every call against the deadline fixed at construction (spec §4.1); `now` is
the instant of the call. -/
def RecordingBuffer.has_exceeded_last_buffer_commit_time
    (b : RecordingBuffer) (now : ℚ) : Bool :=
  decide ((b.next_commit_deadline : ℚ) ≤ now)

/-- Modelled from the spec: `is_ready` is the logical OR of the three
threshold predicates (spec §4.1), observed at instant `now`. -/
def RecordingBuffer.is_ready (b : RecordingBuffer) (now : ℚ) : Bool :=
  b.has_exceeded_max_message_count || b.has_exceeded_buffer_byte_size ||
    b.has_exceeded_last_buffer_commit_time now

/-- The exceptions the embedded Python code can raise.  `valueError` stands
for `ValueError` (the foreign exception the staged unit test makes the
single-item upload raise); `connectionError` stands for an arbitrary
transport/storage fault; `bufferCommitFailed` is the engine's single
distinguished fault `BufferCommitFailed`. -/
inductive PyException where
  | valueError
  | connectionError
  | bufferCommitFailed
  deriving Repr, DecidableEq

/-- `true` on `Except.ok`. -/
def exceptOk : Except PyException Unit → Bool
  | Except.ok _ => true
  | Except.error _ => false

/-- Modelled from the spec: `commit(batch)` instrumented with the list of
items whose upload was actually attempted.  For each fragment in sequence,
first-to-last, invoke the single-item upload `upload`; on the first
upload that raises, stop and raise the single fault `BufferCommitFailed`
in place of the underlying exception (spec §4.2).  Returns the attempted
items together with the outcome. -/
def commit_uploads_run (upload : α → Except PyException Unit) :
    List α → List α × Except PyException Unit
  | [] => ([], Except.ok ())
  | x :: xs =>
    match upload x with
    | Except.ok _ =>
      let r := commit_uploads_run upload xs
      (x :: r.1, r.2)
    | Except.error _ => ([x], Except.error PyException.bufferCommitFailed)

/-- Modelled from the spec: `commit_uploads(batch)` — the outcome of the
instrumented run: normal return when every upload succeeds, the single
fault `BufferCommitFailed` otherwise (spec §4.2). -/
def commit_uploads (upload : α → Except PyException Unit) (batch : List α) :
    Except PyException Unit :=
  (commit_uploads_run upload batch).2

/-! ### Arithmetic facts about `pyInt` -/

theorem pyInt_of_nonneg {q : ℚ} (h : 0 ≤ q) : pyInt q = ⌊q⌋ := if_pos h

theorem pyInt_intCast (n : ℤ) : pyInt (n : ℚ) = n := by
  rcases le_or_lt 0 (n : ℚ) with h | h
  · rw [pyInt_of_nonneg h, Int.floor_intCast]
  · rw [pyInt, if_neg (not_le.mpr h), Int.ceil_intCast]

theorem pyInt_natCast (n : ℕ) : pyInt (n : ℚ) = n := by
  have := pyInt_intCast (n : ℤ)
  simpa using this

theorem pyInt_le_self {q : ℚ} (h : 0 ≤ q) : (pyInt q : ℚ) ≤ q := by
  rw [pyInt_of_nonneg h]
  exact Int.floor_le q

theorem lt_pyInt_add_one {q : ℚ} (h : 0 ≤ q) : q < pyInt q + 1 := by
  rw [pyInt_of_nonneg h]
  exact Int.lt_floor_add_one q

theorem pyInt_add_natCast {q : ℚ} (h : 0 ≤ q) (n : ℕ) :
    pyInt (q + n) = pyInt q + n := by
  have h2 : 0 ≤ q + (n : ℚ) := by positivity
  rw [pyInt_of_nonneg h, pyInt_of_nonneg h2, Int.floor_add_nat]

theorem pyInt_mono {q r : ℚ} (h : q ≤ r) : pyInt q ≤ pyInt r := by
  rcases le_or_lt 0 q with hq | hq
  · rw [pyInt_of_nonneg hq, pyInt_of_nonneg (hq.trans h)]
    exact Int.floor_le_floor h
  · rcases le_or_lt 0 r with hr | hr
    · rw [pyInt, if_neg (not_le.mpr hq), pyInt_of_nonneg hr]
      calc ⌈q⌉ ≤ ⌈(0 : ℚ)⌉ := Int.ceil_le_ceil hq.le
        _ = 0 := by simp
        _ ≤ ⌊r⌋ := Int.floor_nonneg.mpr hr
    · rw [pyInt, if_neg (not_le.mpr hq), pyInt, if_neg (not_le.mpr hr)]
      exact Int.ceil_le_ceil h

theorem pyInt_eq_of_bounds {q : ℚ} {n : ℤ} (h : 0 ≤ q) (h1 : (n : ℚ) ≤ q)
    (h2 : q < n + 1) : pyInt q = n := by
  rw [pyInt_of_nonneg h]
  exact Int.floor_eq_iff.mpr ⟨h1, h2⟩

/-! ### Unfolding lemmas for the readiness predicates -/

theorem has_exceeded_max_message_count_iff (b : RecordingBuffer) :
    b.has_exceeded_max_message_count = true ↔
      b.max_buffer_message_count ≤ b.accumulated_message_count := by
  simp [RecordingBuffer.has_exceeded_max_message_count]

theorem has_exceeded_buffer_byte_size_iff (b : RecordingBuffer) :
    b.has_exceeded_buffer_byte_size = true ↔
      b.max_buffer_size_in_bytes ≤ b.accumulated_byte_size := by
  simp [RecordingBuffer.has_exceeded_buffer_byte_size]

theorem has_exceeded_last_buffer_commit_time_iff (b : RecordingBuffer)
    (now : ℚ) :
    b.has_exceeded_last_buffer_commit_time now = true ↔
      (b.next_commit_deadline : ℚ) ≤ now := by
  simp [RecordingBuffer.has_exceeded_last_buffer_commit_time]

theorem is_ready_eq_or (b : RecordingBuffer) (now : ℚ) :
    b.is_ready now =
      (b.has_exceeded_max_message_count || b.has_exceeded_buffer_byte_size ||
        b.has_exceeded_last_buffer_commit_time now) :=
  rfl

theorem init_next_commit_deadline (mc ms mt : ℕ) (now : ℚ) :
    (RecordingBuffer.init mc ms mt now).next_commit_deadline =
      pyInt now + mt :=
  rfl

/-! ### Claim theorems -/

/-- C7: `append(fragment_size_in_bytes)` yields a state whose
`accumulated_message_count` is exactly one larger and whose
`accumulated_byte_size` is exactly `fragment_size_in_bytes` larger, while
`creation_time`, `next_commit_deadline` and the configuration are unchanged;
`append` is total (no error conditions). -/
theorem append_adds_one_message_and_size (b : RecordingBuffer) (sz : ℕ) :
    (b.append sz).accumulated_message_count =
        b.accumulated_message_count + 1
    ∧ (b.append sz).accumulated_byte_size = b.accumulated_byte_size + sz
    ∧ (b.append sz).creation_time = b.creation_time
    ∧ (b.append sz).next_commit_deadline = b.next_commit_deadline
    ∧ (b.append sz).max_buffer_message_count = b.max_buffer_message_count
    ∧ (b.append sz).max_buffer_size_in_bytes = b.max_buffer_size_in_bytes
    ∧ (b.append sz).max_buffer_time_in_seconds =
        b.max_buffer_time_in_seconds :=
  ⟨rfl, rfl, rfl, rfl, rfl, rfl, rfl⟩

/-- C5: `has_exceeded_max_message_count` holds exactly when
`accumulated_message_count ≥ max_buffer_message_count`, and
`has_exceeded_buffer_byte_size` exactly when
`accumulated_byte_size ≥ max_buffer_size_in_bytes`: greater-or-equal
comparisons, so a threshold of zero is exceeded by a freshly constructed
(empty) buffer, and a buffer sitting exactly at its threshold has already
exceeded it. -/
theorem threshold_predicates_are_ge (b : RecordingBuffer) (ms mt mc : ℕ)
    (now : ℚ) :
    (b.has_exceeded_max_message_count = true ↔
      b.max_buffer_message_count ≤ b.accumulated_message_count)
    ∧ (b.has_exceeded_buffer_byte_size = true ↔
      b.max_buffer_size_in_bytes ≤ b.accumulated_byte_size)
    ∧ (RecordingBuffer.init 0 ms mt now).has_exceeded_max_message_count =
        true
    ∧ (RecordingBuffer.init mc 0 mt now).has_exceeded_buffer_byte_size =
        true
    ∧ RecordingBuffer.has_exceeded_max_message_count
        ((RecordingBuffer.init 1 1 mt now).append 1) = true
    ∧ RecordingBuffer.has_exceeded_buffer_byte_size
        ((RecordingBuffer.init 1 1 mt now).append 1) = true := by
  refine ⟨has_exceeded_max_message_count_iff b,
    has_exceeded_buffer_byte_size_iff b, ?_, ?_, ?_, ?_⟩ <;>
    simp [RecordingBuffer.init, RecordingBuffer.append,
      RecordingBuffer.has_exceeded_max_message_count,
      RecordingBuffer.has_exceeded_buffer_byte_size]

/-- C2: `is_ready` is the logical OR of the three threshold predicates
(for every buffer state and every observation instant), and each of the
three predicates can independently force `is_ready = true` while the other
two remain false (count-only, size-only and time-only states exist). -/
theorem is_ready_is_or_of_three (b : RecordingBuffer) (now : ℚ) :
    (b.is_ready now = true ↔
      (b.has_exceeded_max_message_count = true ∨
        b.has_exceeded_buffer_byte_size = true ∨
        b.has_exceeded_last_buffer_commit_time now = true))
    ∧ (∃ bc : RecordingBuffer, ∃ tc : ℚ,
        bc.has_exceeded_max_message_count = true ∧
        bc.has_exceeded_buffer_byte_size = false ∧
        bc.has_exceeded_last_buffer_commit_time tc = false ∧
        bc.is_ready tc = true)
    ∧ (∃ bs : RecordingBuffer, ∃ ts : ℚ,
        bs.has_exceeded_max_message_count = false ∧
        bs.has_exceeded_buffer_byte_size = true ∧
        bs.has_exceeded_last_buffer_commit_time ts = false ∧
        bs.is_ready ts = true)
    ∧ (∃ bt : RecordingBuffer, ∃ tt : ℚ,
        bt.has_exceeded_max_message_count = false ∧
        bt.has_exceeded_buffer_byte_size = false ∧
        bt.has_exceeded_last_buffer_commit_time tt = true ∧
        bt.is_ready tt = true) := by
  have hz : pyInt 0 = 0 := pyInt_natCast 0
  refine ⟨?_, ⟨RecordingBuffer.init 0 1 1 0, 0, ?_, ?_, ?_, ?_⟩,
    ⟨RecordingBuffer.init 1 0 1 0, 0, ?_, ?_, ?_, ?_⟩,
    ⟨RecordingBuffer.init 1 1 0 0, 0, ?_, ?_, ?_, ?_⟩⟩ <;>
    simp [RecordingBuffer.is_ready, RecordingBuffer.init,
      RecordingBuffer.has_exceeded_max_message_count,
      RecordingBuffer.has_exceeded_buffer_byte_size,
      RecordingBuffer.has_exceeded_last_buffer_commit_time, hz, or_assoc]

/-- C6: a freshly constructed buffer state, observed at its construction
instant with no appends: all-zero thresholds make all three predicates true
and `is_ready = true`; all thresholds ≥ 1 make all three predicates false
and `is_ready = false`. -/
theorem fresh_buffer_readiness (now : ℚ) (h0 : 0 ≤ now) (mc ms mt : ℕ)
    (hc : 1 ≤ mc) (hs : 1 ≤ ms) (ht : 1 ≤ mt) :
    ((RecordingBuffer.init 0 0 0 now).has_exceeded_max_message_count = true
      ∧ (RecordingBuffer.init 0 0 0 now).has_exceeded_buffer_byte_size = true
      ∧ RecordingBuffer.has_exceeded_last_buffer_commit_time
          (RecordingBuffer.init 0 0 0 now) now = true
      ∧ (RecordingBuffer.init 0 0 0 now).is_ready now = true)
    ∧ ((RecordingBuffer.init mc ms mt now).has_exceeded_max_message_count
          = false
      ∧ (RecordingBuffer.init mc ms mt now).has_exceeded_buffer_byte_size
          = false
      ∧ RecordingBuffer.has_exceeded_last_buffer_commit_time
          (RecordingBuffer.init mc ms mt now) now = false
      ∧ (RecordingBuffer.init mc ms mt now).is_ready now = false) := by
  have hle : (pyInt now : ℚ) ≤ now := pyInt_le_self h0
  have hlt : now < pyInt now + 1 := lt_pyInt_add_one h0
  have hmt : (1 : ℚ) ≤ (mt : ℚ) := by exact_mod_cast ht
  have tz : RecordingBuffer.has_exceeded_last_buffer_commit_time
      (RecordingBuffer.init 0 0 0 now) now = true := by
    simp only [RecordingBuffer.has_exceeded_last_buffer_commit_time,
      RecordingBuffer.init, decide_eq_true_eq]
    push_cast
    linarith
  have tn : RecordingBuffer.has_exceeded_last_buffer_commit_time
      (RecordingBuffer.init mc ms mt now) now = false := by
    simp only [RecordingBuffer.has_exceeded_last_buffer_commit_time,
      RecordingBuffer.init, decide_eq_false_iff_not, not_le]
    push_cast
    linarith
  have cz : (RecordingBuffer.init 0 0 0 now).has_exceeded_max_message_count
      = true := by
    simp [RecordingBuffer.has_exceeded_max_message_count,
      RecordingBuffer.init]
  have sz : (RecordingBuffer.init 0 0 0 now).has_exceeded_buffer_byte_size
      = true := by
    simp [RecordingBuffer.has_exceeded_buffer_byte_size,
      RecordingBuffer.init]
  have cn : (RecordingBuffer.init mc ms mt now).has_exceeded_max_message_count
      = false := by
    simp only [RecordingBuffer.has_exceeded_max_message_count,
      RecordingBuffer.init, decide_eq_false_iff_not, not_le]
    omega
  have sn : (RecordingBuffer.init mc ms mt now).has_exceeded_buffer_byte_size
      = false := by
    simp only [RecordingBuffer.has_exceeded_buffer_byte_size,
      RecordingBuffer.init, decide_eq_false_iff_not, not_le]
    omega
  exact ⟨⟨cz, sz, tz, by simp [RecordingBuffer.is_ready, tz]⟩,
    ⟨cn, sn, tn, by simp [RecordingBuffer.is_ready, cn, sn, tn]⟩⟩

/-- Witness for C6: thresholds all zero and all one, constructed and
observed at instant 0. -/
theorem fresh_buffer_readiness_witness :
    (0 : ℚ) ≤ 0 ∧ (1 : ℕ) ≤ 1
    ∧ (RecordingBuffer.init 0 0 0 0).is_ready 0 = true
    ∧ (RecordingBuffer.init 1 1 1 0).is_ready 0 = false :=
  ⟨le_rfl, le_rfl,
    (fresh_buffer_readiness 0 le_rfl 1 1 1 le_rfl le_rfl le_rfl).1.2.2.2,
    (fresh_buffer_readiness 0 le_rfl 1 1 1 le_rfl le_rfl le_rfl).2.2.2.2⟩

/-- C4: `has_exceeded_last_buffer_commit_time` evaluates
`now() ≥ next_commit_deadline` at every call against the deadline fixed at
construction; with `max_buffer_time_in_seconds = 5` and no appends it is
false at `+0s` and `+4s` after construction and true at exactly `+5s` and
at every later time, and `is_ready` follows it (count and size thresholds
not yet reached). -/
theorem time_predicate_deadline_schedule (b : RecordingBuffer) (obs : ℚ)
    (c t : ℚ) (mc ms : ℕ) (h0 : 0 ≤ c) (hc : 1 ≤ mc) (hs : 1 ≤ ms)
    (hl : c + 5 ≤ t) :
    (RecordingBuffer.has_exceeded_last_buffer_commit_time b obs = true ↔
      (b.next_commit_deadline : ℚ) ≤ obs)
    ∧ RecordingBuffer.has_exceeded_last_buffer_commit_time
        (RecordingBuffer.init mc ms 5 c) c = false
    ∧ RecordingBuffer.has_exceeded_last_buffer_commit_time
        (RecordingBuffer.init mc ms 5 c) (c + 4) = false
    ∧ RecordingBuffer.has_exceeded_last_buffer_commit_time
        (RecordingBuffer.init mc ms 5 c) (c + 5) = true
    ∧ RecordingBuffer.has_exceeded_last_buffer_commit_time
        (RecordingBuffer.init mc ms 5 c) t = true
    ∧ (RecordingBuffer.init mc ms 5 c).is_ready c = false
    ∧ (RecordingBuffer.init mc ms 5 c).is_ready (c + 4) = false
    ∧ (RecordingBuffer.init mc ms 5 c).is_ready (c + 5) = true
    ∧ (RecordingBuffer.init mc ms 5 c).is_ready t = true := by
  have hle : (pyInt c : ℚ) ≤ c := pyInt_le_self h0
  have hlt : c < pyInt c + 1 := lt_pyInt_add_one h0
  have t0 : RecordingBuffer.has_exceeded_last_buffer_commit_time
      (RecordingBuffer.init mc ms 5 c) c = false := by
    simp only [RecordingBuffer.has_exceeded_last_buffer_commit_time,
      RecordingBuffer.init, decide_eq_false_iff_not, not_le]
    push_cast
    linarith
  have t4 : RecordingBuffer.has_exceeded_last_buffer_commit_time
      (RecordingBuffer.init mc ms 5 c) (c + 4) = false := by
    simp only [RecordingBuffer.has_exceeded_last_buffer_commit_time,
      RecordingBuffer.init, decide_eq_false_iff_not, not_le]
    push_cast
    linarith
  have t5 : RecordingBuffer.has_exceeded_last_buffer_commit_time
      (RecordingBuffer.init mc ms 5 c) (c + 5) = true := by
    simp only [RecordingBuffer.has_exceeded_last_buffer_commit_time,
      RecordingBuffer.init, decide_eq_true_eq]
    push_cast
    linarith
  have tt : RecordingBuffer.has_exceeded_last_buffer_commit_time
      (RecordingBuffer.init mc ms 5 c) t = true := by
    simp only [RecordingBuffer.has_exceeded_last_buffer_commit_time,
      RecordingBuffer.init, decide_eq_true_eq]
    push_cast
    linarith
  have cn : (RecordingBuffer.init mc ms 5 c).has_exceeded_max_message_count
      = false := by
    simp only [RecordingBuffer.has_exceeded_max_message_count,
      RecordingBuffer.init, decide_eq_false_iff_not, not_le]
    omega
  have sn : (RecordingBuffer.init mc ms 5 c).has_exceeded_buffer_byte_size
      = false := by
    simp only [RecordingBuffer.has_exceeded_buffer_byte_size,
      RecordingBuffer.init, decide_eq_false_iff_not, not_le]
    omega
  exact ⟨has_exceeded_last_buffer_commit_time_iff b obs, t0, t4, t5, tt,
    by simp [RecordingBuffer.is_ready, cn, sn, t0],
    by simp [RecordingBuffer.is_ready, cn, sn, t4],
    by simp [RecordingBuffer.is_ready, t5],
    by simp [RecordingBuffer.is_ready, tt]⟩

/-- Witness for C4: construction at the fractional instant `3/2`, count and
size thresholds at 2, later observation instant 7 = construction + 11/2. -/
theorem time_predicate_deadline_schedule_witness :
    (0 : ℚ) ≤ 3 / 2 ∧ (1 : ℕ) ≤ 2 ∧ (3 : ℚ) / 2 + 5 ≤ 7
    ∧ (RecordingBuffer.init 2 2 5 (3 / 2)).is_ready (3 / 2 + 4) = false
    ∧ (RecordingBuffer.init 2 2 5 (3 / 2)).is_ready (3 / 2 + 5) = true :=
  ⟨by norm_num, by norm_num, by norm_num,
    (time_predicate_deadline_schedule (RecordingBuffer.init 1 1 1 0) 0
      (3 / 2) 7 2 2 (by norm_num) (by norm_num) (by norm_num)
      (by norm_num)).2.2.2.2.2.2.1,
    (time_predicate_deadline_schedule (RecordingBuffer.init 1 1 1 0) 0
      (3 / 2) 7 2 2 (by norm_num) (by norm_num) (by norm_num)
      (by norm_num)).2.2.2.2.2.2.2.1⟩

/-- C3: `renew()` (named `new()` in the code) constructs a buffer state
with zeroed counters whose `next_commit_deadline` is anchored to the
instant of the renew call (truncated to the whole second, plus
`max_buffer_time_in_seconds`) rather than to the previous deadline: a
buffer built at `T0` with `max_buffer_time_in_seconds = 5` and renewed at
`T0 + 10` gets a deadline exactly `first_deadline + 10`, which equals the
renewal instant (truncated) plus 5; at whole-second instants the deadline
is exactly the instant plus the configured time. -/
theorem renew_anchored_to_renewal_instant (b : RecordingBuffer) (now : ℚ)
    (n : ℤ) (cnt szb : ℕ) (T0 : ℚ) (h0 : 0 ≤ T0) :
    ((b.new now).accumulated_message_count = 0
      ∧ (b.new now).accumulated_byte_size = 0
      ∧ (b.new now).next_commit_deadline =
          pyInt now + b.max_buffer_time_in_seconds
      ∧ (b.new (n : ℚ)).next_commit_deadline =
          n + b.max_buffer_time_in_seconds)
    ∧ (((RecordingBuffer.init cnt szb 5 T0).new (T0 + 10)).next_commit_deadline
          = (RecordingBuffer.init cnt szb 5 T0).next_commit_deadline + 10
      ∧ ((RecordingBuffer.init cnt szb 5 T0).new (T0 + 10)).next_commit_deadline
          = pyInt (T0 + 10) + 5) := by
  have h10 : pyInt (T0 + 10) = pyInt T0 + 10 := by
    simpa using pyInt_add_natCast h0 10
  refine ⟨⟨rfl, rfl, rfl, ?_⟩, ?_, ?_⟩
  · show pyInt (n : ℚ) + (b.max_buffer_time_in_seconds : ℤ) = _
    rw [pyInt_intCast]
  · show pyInt (T0 + 10) + ((5 : ℕ) : ℤ) = pyInt T0 + ((5 : ℕ) : ℤ) + 10
    rw [h10]
    push_cast
    ring
  · show pyInt (T0 + 10) + ((5 : ℕ) : ℤ) = pyInt (T0 + 10) + 5
    push_cast
    ring

/-- Witness for C3: construction at instant 0, renewal at instant 10. -/
theorem renew_anchored_to_renewal_instant_witness :
    (0 : ℚ) ≤ 0
    ∧ ((RecordingBuffer.init 1 1 5 0).new (0 + 10)).next_commit_deadline
        = (RecordingBuffer.init 1 1 5 0).next_commit_deadline + 10 :=
  ⟨le_rfl, (renew_anchored_to_renewal_instant (RecordingBuffer.init 1 1 5 0)
    0 7 1 1 0 le_rfl).2.1⟩

/-- C8: the buffer's `next_commit_deadline` is a whole-second integer Unix
timestamp — the fractional part of the construction/renewal instant is
truncated — so deadline arithmetic works at one-second granularity: any two
construction instants inside the same whole second produce the identical
integer deadline, equal to that whole second plus
`max_buffer_time_in_seconds`. -/
theorem deadline_whole_second_granularity (mc ms mt : ℕ) (now : ℚ)
    (h0 : 0 ≤ now) (k : ℕ) (f1 f2 : ℚ) (hf1 : 0 ≤ f1) (hf1l : f1 < 1)
    (hf2 : 0 ≤ f2) (hf2l : f2 < 1) :
    ((RecordingBuffer.init mc ms mt now).next_commit_deadline = ⌊now⌋ + mt
      ∧ (⌊now⌋ : ℚ) ≤ now ∧ now - 1 < (⌊now⌋ : ℚ))
    ∧ (RecordingBuffer.init mc ms mt ((k : ℚ) + f1)).next_commit_deadline
        = (RecordingBuffer.init mc ms mt ((k : ℚ) + f2)).next_commit_deadline
    ∧ (RecordingBuffer.init mc ms mt ((k : ℚ) + f1)).next_commit_deadline
        = (k : ℤ) + mt := by
  have e1 : pyInt ((k : ℚ) + f1) = k := by
    have hnn : (0 : ℚ) ≤ (k : ℚ) + f1 := by positivity
    rw [pyInt_of_nonneg hnn, add_comm, Int.floor_add_nat,
      Int.floor_eq_zero_iff.mpr ⟨hf1, hf1l⟩]
    omega
  have e2 : pyInt ((k : ℚ) + f2) = k := by
    have hnn : (0 : ℚ) ≤ (k : ℚ) + f2 := by positivity
    rw [pyInt_of_nonneg hnn, add_comm, Int.floor_add_nat,
      Int.floor_eq_zero_iff.mpr ⟨hf2, hf2l⟩]
    omega
  refine ⟨⟨?_, Int.floor_le now, Int.sub_one_lt_floor now⟩, ?_, ?_⟩
  · show pyInt now + (mt : ℤ) = ⌊now⌋ + mt
    rw [pyInt_of_nonneg h0]
  · show pyInt ((k : ℚ) + f1) + (mt : ℤ) = pyInt ((k : ℚ) + f2) + (mt : ℤ)
    rw [e1, e2]
  · show pyInt ((k : ℚ) + f1) + (mt : ℤ) = (k : ℤ) + mt
    rw [e1]

/-- Witness for C8: construction instants `1 + 1/2` and `1 + 3/4`, inside
the whole second 1, with `max_buffer_time_in_seconds = 5`. -/
theorem deadline_whole_second_granularity_witness :
    (0 : ℚ) ≤ 3 / 2 ∧ (0 : ℚ) ≤ 1 / 2 ∧ (1 : ℚ) / 2 < 1
    ∧ (RecordingBuffer.init 1 1 5 ((1 : ℚ) + 1 / 2)).next_commit_deadline
        = (RecordingBuffer.init 1 1 5 ((1 : ℚ) + 3 / 4)).next_commit_deadline
    ∧ (RecordingBuffer.init 1 1 5 ((1 : ℚ) + 1 / 2)).next_commit_deadline
        = (1 : ℤ) + 5 :=
  ⟨by norm_num, by norm_num, by norm_num,
    by
      have h := (deadline_whole_second_granularity 1 1 5 (3 / 2) (by norm_num)
        1 (1 / 2) (3 / 4) (by norm_num) (by norm_num) (by norm_num)
        (by norm_num)).2.1
      simpa using h,
    by
      have h := (deadline_whole_second_granularity 1 1 5 (3 / 2) (by norm_num)
        1 (1 / 2) (3 / 4) (by norm_num) (by norm_num) (by norm_num)
        (by norm_num)).2.2
      simpa using h⟩

/-- C10 as stated is false: deadlines are truncated to whole seconds, so a
renewal strictly later than construction but inside the same whole second
leaves `next_commit_deadline` unchanged — construction at instant `1/2`,
renewal at the strictly later instant `3/4`, both deadlines equal 5. -/
theorem renew_strictly_later_same_deadline :
    (1 : ℚ) / 2 < 3 / 4
    ∧ ((RecordingBuffer.init 1 1 5 (1 / 2)).new (3 / 4)).next_commit_deadline
        = (RecordingBuffer.init 1 1 5 (1 / 2)).next_commit_deadline
    ∧ ¬ ((RecordingBuffer.init 1 1 5 (1 / 2)).next_commit_deadline <
        RecordingBuffer.next_commit_deadline
          ((RecordingBuffer.init 1 1 5 (1 / 2)).new (3 / 4))) := by
  have e1 : pyInt (1 / 2 : ℚ) = 0 :=
    pyInt_eq_of_bounds (by norm_num) (by norm_num) (by norm_num)
  have e2 : pyInt (3 / 4 : ℚ) = 0 :=
    pyInt_eq_of_bounds (by norm_num) (by norm_num) (by norm_num)
  have key : RecordingBuffer.next_commit_deadline
      ((RecordingBuffer.init 1 1 5 (1 / 2)).new (3 / 4))
      = (RecordingBuffer.init 1 1 5 (1 / 2)).next_commit_deadline := by
    show pyInt (3 / 4 : ℚ) + ((5 : ℕ) : ℤ) = pyInt (1 / 2 : ℚ) + ((5 : ℕ) : ℤ)
    rw [e1, e2]
  exact ⟨by norm_num, key, by rw [key]; exact lt_irrefl _⟩

/-- C10 amended: across a renewal the deadline never moves backward —
renewing at a later-or-equal instant gives a `next_commit_deadline` at
least the old one — and it is strictly greater whenever the renewal
happens at least one full second after construction (whole-second
truncation means a renewal less than a second later may leave the deadline
unchanged). -/
theorem renew_deadline_never_decreases (mc ms mt : ℕ) (t0 t1 : ℚ)
    (h0 : 0 ≤ t0) (h : t0 ≤ t1) :
    (RecordingBuffer.init mc ms mt t0).next_commit_deadline ≤
      ((RecordingBuffer.init mc ms mt t0).new t1).next_commit_deadline
    ∧ (t0 + 1 ≤ t1 →
        (RecordingBuffer.init mc ms mt t0).next_commit_deadline <
          ((RecordingBuffer.init mc ms mt t0).new t1).next_commit_deadline) := by
  constructor
  · show pyInt t0 + (mt : ℤ) ≤ pyInt t1 + (mt : ℤ)
    have := pyInt_mono h
    omega
  · intro h1
    show pyInt t0 + (mt : ℤ) < pyInt t1 + (mt : ℤ)
    have k1 : pyInt (t0 + 1) = pyInt t0 + 1 := by
      simpa using pyInt_add_natCast h0 1
    have k2 : pyInt (t0 + 1) ≤ pyInt t1 := pyInt_mono h1
    omega

/-- Witness for the amended C10: construction at instant 0, renewal at
instant 10 — the deadline advances (and in particular does not decrease). -/
theorem renew_deadline_never_decreases_witness :
    (0 : ℚ) ≤ 0 ∧ (0 : ℚ) ≤ 10 ∧ (0 : ℚ) + 1 ≤ 10
    ∧ (RecordingBuffer.init 1 1 5 0).next_commit_deadline <
        ((RecordingBuffer.init 1 1 5 0).new 10).next_commit_deadline :=
  ⟨le_rfl, by norm_num, by norm_num,
    (renew_deadline_never_decreases 1 1 5 0 10 le_rfl (by norm_num)).2
      (by norm_num)⟩

/-! ### Behaviour of `commit_uploads` -/

theorem commit_uploads_ok_iff (upload : α → Except PyException Unit)
    (batch : List α) :
    commit_uploads upload batch = Except.ok () ↔
      ∀ x ∈ batch, exceptOk (upload x) = true := by
  induction batch with
  | nil => simp [commit_uploads, commit_uploads_run]
  | cons x xs ih =>
    cases h : upload x with
    | ok u =>
      simp only [commit_uploads, commit_uploads_run, h] at ih ⊢
      simp [ih, h, exceptOk]
    | error e =>
      simp [commit_uploads, commit_uploads_run, h, exceptOk]

theorem commit_uploads_ok_or_failed (upload : α → Except PyException Unit)
    (batch : List α) :
    commit_uploads upload batch = Except.ok () ∨
      commit_uploads upload batch =
        Except.error PyException.bufferCommitFailed := by
  induction batch with
  | nil => exact Or.inl rfl
  | cons x xs ih =>
    cases h : upload x with
    | ok u => simpa [commit_uploads, commit_uploads_run, h] using ih
    | error e =>
      exact Or.inr (by simp [commit_uploads, commit_uploads_run, h])

theorem commit_uploads_run_attempted (upload : α → Except PyException Unit)
    (batch : List α) :
    (commit_uploads_run upload batch).1 =
      batch.takeWhile (fun x => exceptOk (upload x))
        ++ (batch.dropWhile (fun x => exceptOk (upload x))).take 1 := by
  induction batch with
  | nil => simp [commit_uploads_run]
  | cons x xs ih =>
    cases h : upload x with
    | ok u =>
      simp [commit_uploads_run, h, List.takeWhile_cons, List.dropWhile_cons,
        exceptOk, ih]
    | error e =>
      simp [commit_uploads_run, h, List.takeWhile_cons, List.dropWhile_cons,
        exceptOk]

/-- C1: `commit` over a batch raises the single fault `BufferCommitFailed`
if and only if some item's upload fails: it returns normally exactly when
every upload succeeds, otherwise the only outcome it produces is the
`BufferCommitFailed` fault (no partial-success indication), and the items
it attempts are the successful ones up to and including the first failing
item — nothing after the first failure is attempted. -/
theorem commit_all_or_nothing (upload : α → Except PyException Unit)
    (batch : List α) :
    (commit_uploads upload batch = Except.ok () ↔
      ∀ x ∈ batch, exceptOk (upload x) = true)
    ∧ (commit_uploads upload batch = Except.ok () ∨
        commit_uploads upload batch =
          Except.error PyException.bufferCommitFailed)
    ∧ (commit_uploads_run upload batch).1 =
        batch.takeWhile (fun x => exceptOk (upload x))
          ++ (batch.dropWhile (fun x => exceptOk (upload x))).take 1 :=
  ⟨commit_uploads_ok_iff upload batch,
    commit_uploads_ok_or_failed upload batch,
    commit_uploads_run_attempted upload batch⟩

/-- C9: every exception the single-item upload raises — of any type,
including the `ValueError` the unit test uses — is converted by `commit`
into `BufferCommitFailed`; no foreign exception type escapes to the
caller. -/
theorem commit_converts_every_exception
    (upload : α → Except PyException Unit) (batch : List α)
    (e : PyException)
    (h : commit_uploads upload batch = Except.error e) :
    e = PyException.bufferCommitFailed := by
  rcases commit_uploads_ok_or_failed upload batch with hok | hf
  · rw [h] at hok
    exact Except.noConfusion hok
  · rw [h] at hf
    exact Except.error.inj hf

/-- A single-item upload that raises `ValueError` on every item, as in the
unit test for the failing batch. -/
def valueErrorUpload : ℕ → Except PyException Unit :=
  fun _ => Except.error PyException.valueError

/-- Witness for C9: a one-item batch whose upload raises `ValueError`;
`commit` raises `BufferCommitFailed`, not `ValueError`. -/
theorem commit_converts_every_exception_witness :
    commit_uploads valueErrorUpload [0] =
        Except.error PyException.bufferCommitFailed
    ∧ PyException.bufferCommitFailed = PyException.bufferCommitFailed :=
  ⟨rfl, commit_converts_every_exception valueErrorUpload [0]
    PyException.bufferCommitFailed rfl⟩
